import Mathlib

/-!
Verification of the dashboard request/response orchestration layer of the
angular-login-dashboard repository.

The embedding translates, from the TypeScript source:
  * the enumerations and record shapes of `src/app/models/interfaces.ts`;
  * the form-state, countdown, idle-monitor, request and download logic of
    `src/app/components/dashboard/dashboard.ts` (the richest dashboard
    variant, the one with UUID tracking, countdown and idle auto-logout);
  * `buildRequest`, `getSchema` and `RequestTimeoutError` of the matching
    `src/app/services/file-processing.ts` variant (the one whose
    `processFile`/`getSchema` take a `uuid` argument);
  * `logout` of `src/app/services/auth.ts`.

Angular signals are modelled as record fields of an explicit state record;
each component method becomes a state-transformer function.  RxJS
subscriptions are modelled by identifying a subscription with a token: the
dashboard keeps at most one request subscription (`currentRequest`), and the
RxJS guarantee that an unsubscribed subscription never fires its callbacks is
embedded by gating every delivery function on the token still being the held
one.  Timer subscriptions (`countdownSubscription`, `idleTimerSubscription`)
are modelled by a Boolean "active" flag, and a timer tick is only observable
while its flag is set.  Times are in milliseconds, as in the source
(`Date.now()`).
-/

namespace Dashboard

/-- `TransactionType` of `src/app/models/interfaces.ts`
(`ORDER`, `ASN`, `GETSCHEMA`, `ERRORRESPONSE`, `ERRORTIMEOUT`), together with
`ITEM`, which `dashboard.ts` references as a switch case
(`case TransactionType.ITEM`) and documents ("ITEM: ACK only") although the
enum declaration in `interfaces.ts` omits it.  The embedding therefore works
over the union domain; every statement about the five declared members is
unaffected by the extra constructor. -/
inductive TransactionType
  | ORDER
  | ASN
  | GETSCHEMA
  | ERRORRESPONSE
  | ERRORTIMEOUT
  | ITEM
deriving DecidableEq, Repr, Fintype, Inhabited

/-- `OrderType` of `interfaces.ts`: `LTL`, `PARCEL`. -/
inductive OrderType
  | LTL
  | PARCEL
deriving DecidableEq, Repr, Fintype, Inhabited

/-- `FormatType` of `interfaces.ts`: `EDI`, `JSON`. -/
inductive FormatType
  | EDI
  | JSON
deriving DecidableEq, Repr, Fintype, Inhabited

/-- `ResponseType` of `interfaces.ts`:
`ACK`, `SHIPCONFIRM`, `RECEIPT`, `ORDER`, `ASN`, `ITEM`. -/
inductive ResponseType
  | ACK
  | SHIPCONFIRM
  | RECEIPT
  | ORDER
  | ASN
  | ITEM
deriving DecidableEq, Repr, Fintype, Inhabited

/-- The string value of a `TransactionType` member (TS string enum). -/
def TransactionType.wire : TransactionType → String
  | .ORDER => "ORDER"
  | .ASN => "ASN"
  | .GETSCHEMA => "GETSCHEMA"
  | .ERRORRESPONSE => "ERRORRESPONSE"
  | .ERRORTIMEOUT => "ERRORTIMEOUT"
  | .ITEM => "ITEM"

/-- The string value of an `OrderType` member (TS string enum). -/
def OrderType.wire : OrderType → String
  | .LTL => "LTL"
  | .PARCEL => "PARCEL"

/-- The string value of a `FormatType` member (TS string enum). -/
def FormatType.wire : FormatType → String
  | .EDI => "EDI"
  | .JSON => "JSON"

/-- The string value of a `ResponseType` member (TS string enum). -/
def ResponseType.wire : ResponseType → String
  | .ACK => "ACK"
  | .SHIPCONFIRM => "SHIPCONFIRM"
  | .RECEIPT => "RECEIPT"
  | .ORDER => "ORDER"
  | .ASN => "ASN"
  | .ITEM => "ITEM"

/-- `orderResponseTypes` of `dashboard.ts`: response types for ORDER. -/
def orderResponseTypes : List ResponseType :=
  [.ACK, .SHIPCONFIRM]

/-- `asnResponseTypes` of `dashboard.ts`: response types for ASN. -/
def asnResponseTypes : List ResponseType :=
  [.ACK, .RECEIPT]

/-- `itemResponseTypes` of `dashboard.ts`: response types for ITEM. -/
def itemResponseTypes : List ResponseType :=
  [.ACK]

/-- `getSchemaResponseTypes` of `dashboard.ts`: response types for GETSCHEMA. -/
def getSchemaResponseTypes : List ResponseType :=
  [.ASN, .ORDER, .SHIPCONFIRM, .RECEIPT, .ITEM]

/-- The `filteredResponseTypes` computed of `dashboard.ts` (lines 109-122):
a switch on the selected transaction type, defaulting to
`orderResponseTypes`. -/
def filteredResponseTypes : TransactionType → List ResponseType
  | .ORDER => orderResponseTypes
  | .ASN => asnResponseTypes
  | .ITEM => itemResponseTypes
  | .GETSCHEMA => getSchemaResponseTypes
  | _ => orderResponseTypes

/-- The switch inside the constructor effect of `dashboard.ts`
(lines 162-177), which recomputes the valid response types for the current
transaction type.  It is textually a second copy of the
`filteredResponseTypes` switch. -/
def validResponseTypesFor : TransactionType → List ResponseType
  | .ORDER => orderResponseTypes
  | .ASN => asnResponseTypes
  | .ITEM => itemResponseTypes
  | .GETSCHEMA => getSchemaResponseTypes
  | _ => orderResponseTypes

/-- The constructor effect of `dashboard.ts` (lines 157-183): given the
current transaction type and the currently selected response type, keep the
selection if it is in the valid list, otherwise reset it to
`validResponseTypes[0]`. -/
def effectResetResponseType (t : TransactionType) (r : ResponseType) :
    ResponseType :=
  let valid := validResponseTypesFor t
  if valid.contains r then r else valid.headD r

/-- `ProcessingResponseItem` of `interfaces.ts`: one artifact returned by the
backend. -/
structure ProcessingResponseItem where
  success : Bool
  filename : String
  content : String
  mimeType : String
  message : String
deriving DecidableEq, Repr

/-- `DashboardFormData` of `interfaces.ts`: the form selections handed to the
file-processing service; `orderType` is the optional field. -/
structure DashboardFormData where
  transactionType : TransactionType
  orderType : Option OrderType
  format : FormatType
  responseType : ResponseType
deriving DecidableEq, Repr

/-- The inner `Request` object of `BackendRequest` in `interfaces.ts`.  The
two optional JSON keys `ORDER TYPE` and `Input File` are `Option` fields:
`some` means the key is present in the serialized envelope, `none` that it is
absent. -/
structure BackendRequestBody where
  transactionTypeKey : String
  orderTypeKey : Option String
  formatKey : String
  responseTypeKey : String
  inputFileKey : Option String
deriving DecidableEq, Repr

/-- `BackendRequest` of `interfaces.ts` (UUID-tagged variant). -/
structure BackendRequest where
  UUID : String
  Request : BackendRequestBody
deriving DecidableEq, Repr

/-- `buildRequest` of the file-processing service
(`src/unnamed/part_000`, lines 191-212): starts from the three mandatory
keys, adds `ORDER TYPE` only when `formData.transactionType ===
TransactionType.ORDER && formData.orderType` (the enum strings `LTL`/`PARCEL`
are never empty, so JS truthiness of `formData.orderType` is `isSome`), and
adds `Input File` only when `fileContent` is truthy (present and not the
empty string). -/
def buildRequest (formData : DashboardFormData) (uuid : String)
    (fileContent : Option String) : BackendRequest :=
  { UUID := uuid
    Request :=
      { transactionTypeKey := formData.transactionType.wire
        formatKey := formData.format.wire
        responseTypeKey := formData.responseType.wire
        orderTypeKey :=
          if formData.transactionType = .ORDER ∧ formData.orderType.isSome
          then formData.orderType.map OrderType.wire
          else none
        inputFileKey :=
          match fileContent with
          | some c => if c = "" then none else some c
          | none => none } }

/-- `getSchema` of the file-processing service (`src/unnamed/part_000`,
lines 277-291), restricted to the envelope it posts: it calls `buildRequest`
with no `fileContent` argument. -/
def getSchemaRequest (formData : DashboardFormData) (uuid : String) :
    BackendRequest :=
  buildRequest formData uuid none

/-- `processFile` of the file-processing service (`src/unnamed/part_000`,
lines 231-270), restricted to the envelope it posts once the `FileReader`
has produced the base64 `fileContent` of the staged file. -/
def processFileRequest (formData : DashboardFormData) (uuid : String)
    (fileContent : String) : BackendRequest :=
  buildRequest formData uuid (some fileContent)

/-- The errors a request observable can settle with.
`requestTimeout` is `RequestTimeoutError` of `file-processing.ts` (thrown by
its `handleError` when the RxJS `timeout` operator fires); `other` carries
`error.message`, `none` standing for an absent or empty (falsy) message. -/
inductive RequestError
  | requestTimeout
  | other (message : Option String)
deriving DecidableEq, Repr

/-- The dashboard's `TIMEOUT_SECONDS` constant (line 39). -/
def TIMEOUT_SECONDS : Nat := 60

/-- The dashboard's `IDLE_TIMEOUT_SECONDS` constant (line 42): 300 s. -/
def IDLE_TIMEOUT_SECONDS : Nat := 300

/-- The state of `DashboardComponent` (`dashboard.ts`): its signals, its
subscription fields and its plain fields.  Subscriptions are modelled as
described in the header: `currentRequest` holds the token of the live
request subscription, `countdownActive` / `idleTimerActive` mirror the
nullness of `countdownSubscription` / `idleTimerSubscription`, and
`nextRequestId` is the supply of fresh subscription tokens.  A staged `File`
is identified with its (base64) content string. -/
structure DashboardState where
  selectedTransactionType : TransactionType
  selectedOrderType : OrderType
  selectedFormat : FormatType
  selectedResponseType : ResponseType
  selectedFile : Option String
  isProcessing : Bool
  processedResults : List ProcessingResponseItem
  errorMessage : Option String
  isTimeoutError : Bool
  currentUUID : Option String
  remainingSeconds : Nat
  currentRequest : Option Nat
  countdownActive : Bool
  idleTimerActive : Bool
  lastActivityTime : Nat
  nextRequestId : Nat
deriving DecidableEq, Repr

/-- `isFileInputDisabled` computed of `dashboard.ts` (lines 139-142). -/
def isFileInputDisabled (s : DashboardState) : Bool :=
  s.selectedTransactionType = .GETSCHEMA

/-- `isProcessDisabled` computed of `dashboard.ts` (lines 145-152). -/
def isProcessDisabled (s : DashboardState) : Bool :=
  if isFileInputDisabled s then false else s.selectedFile.isNone

/-- `showOrderTypeAfterTransaction` computed of `dashboard.ts`
(lines 125-127). -/
def showOrderTypeAfterTransaction (s : DashboardState) : Bool :=
  s.selectedTransactionType = .ORDER

/-- `showOrderTypeAfterResponse` computed of `dashboard.ts`
(lines 130-136). -/
def showOrderTypeAfterResponse (s : DashboardState) : Bool :=
  s.selectedTransactionType = .GETSCHEMA ∧ s.selectedResponseType = .ORDER

/-- `uuidSuffix` construction shared by `handleCountdownTimeout`
(lines 386-387) and `handleRequestError` (lines 443-444) of `dashboard.ts`:
`" (UUID=${uuid})"` when a UUID is tracked, otherwise the empty string. -/
def uuidSuffix : Option String → String
  | some u => " (UUID=" ++ u ++ ")"
  | none => ""

/-- The timeout error message of `dashboard.ts` (lines 389 and 447), the
same template string in both places. -/
def timeoutMessage (uuid : Option String) : String :=
  "Request timed out. The server did not respond within "
    ++ toString TIMEOUT_SECONDS
    ++ " seconds. Please try again." ++ uuidSuffix uuid

/-- `clearOutputState` of `dashboard.ts` (lines 336-341). -/
def clearOutputState (s : DashboardState) : DashboardState :=
  { s with errorMessage := none, processedResults := [],
           isTimeoutError := false, currentUUID := none }

/-- `stopCountdown` of `dashboard.ts` (lines 367-372): unsubscribes and
nulls the countdown subscription. -/
def stopCountdown (s : DashboardState) : DashboardState :=
  { s with countdownActive := false }

/-- `startCountdown` of `dashboard.ts` (lines 346-362): resets the counter
to `TIMEOUT_SECONDS`, clears any previous countdown and subscribes a fresh
one-second interval. -/
def startCountdown (s : DashboardState) : DashboardState :=
  { s with remainingSeconds := TIMEOUT_SECONDS, countdownActive := true }

/-- `resetForNextRequest` of `dashboard.ts` (lines 399-409). -/
def resetForNextRequest (s : DashboardState) : DashboardState :=
  { s with isProcessing := false, countdownActive := false,
           remainingSeconds := TIMEOUT_SECONDS, currentRequest := none }

/-- `cancelRequest` of `dashboard.ts` (lines 415-435): stop the countdown,
unsubscribe the request, reset the processing flag, the counter and the
UUID; everything else (form selections, staged file, results, error
message) is deliberately kept. -/
def cancelRequest (s : DashboardState) : DashboardState :=
  { s with countdownActive := false, currentRequest := none,
           isProcessing := false, remainingSeconds := TIMEOUT_SECONDS,
           currentUUID := none }

/-- `handleCountdownTimeout` of `dashboard.ts` (lines 377-393). -/
def handleCountdownTimeout (s : DashboardState) : DashboardState :=
  { s with countdownActive := false, currentRequest := none,
           errorMessage := some (timeoutMessage s.currentUUID),
           isTimeoutError := true, isProcessing := false,
           remainingSeconds := TIMEOUT_SECONDS }

/-- `handleRequestError` of `dashboard.ts` (lines 440-457): classify the
error (a `RequestTimeoutError` is displayed with the timeout template and
the timeout flag, everything else with `error.message` or the generic
fallback, falsy messages included), then `resetForNextRequest`. -/
def handleRequestError (err : RequestError) (s : DashboardState) :
    DashboardState :=
  let withMessage :=
    match err with
    | .requestTimeout =>
        { s with errorMessage := some (timeoutMessage s.currentUUID),
                 isTimeoutError := true }
    | .other m =>
        let base :=
          match m with
          | some msg =>
              if msg = "" then "Processing failed. Please try again." else msg
          | none => "Processing failed. Please try again."
        { s with errorMessage := some (base ++ uuidSuffix s.currentUUID),
                 isTimeoutError := false }
  resetForNextRequest withMessage

/-- One tick of the countdown interval of `startCountdown` (lines 353-361):
only observable while the countdown subscription is live; decrements while
above 1, otherwise fires `handleCountdownTimeout`. -/
def countdownTick (s : DashboardState) : DashboardState :=
  if s.countdownActive then
    if s.remainingSeconds > 1 then
      { s with remainingSeconds := s.remainingSeconds - 1 }
    else handleCountdownTimeout s
  else s

/-- What `processFile` of `dashboard.ts` dispatches: the GETSCHEMA branch
calls `fileService.getSchema(formData, uuid)`, the file branch calls
`fileService.processFile(formData, file, uuid)`. -/
inductive Dispatch
  | getSchema (formData : DashboardFormData) (uuid : String)
  | processFileReq (formData : DashboardFormData) (file : String)
      (uuid : String)
deriving DecidableEq, Repr

/-- `processFile` of `dashboard.ts` (lines 464-527).  The generated UUID is
an input (the source draws it from `fileService.generateUUID()`).  Returns
the successor state together with the dispatched request, `none` when the
missing-file validation guard returned early.  In source order: the guard;
unsubscribing and discarding any existing `currentRequest`; setting the
processing flag; `clearOutputState`; `startCountdown`; building the form
data, with `orderType` added exactly when `showOrderTypeAfterTransaction ||
showOrderTypeAfterResponse`; recording the UUID; subscribing the new request
(modelled by the fresh token `s.nextRequestId`). -/
def processFileStep (uuid : String) (s : DashboardState) :
    DashboardState × Option Dispatch :=
  let noFileRequired := s.selectedTransactionType = .GETSCHEMA
  if ¬noFileRequired ∧ s.selectedFile.isNone then (s, none)
  else
    let formData : DashboardFormData :=
      { transactionType := s.selectedTransactionType
        format := s.selectedFormat
        responseType := s.selectedResponseType
        orderType :=
          if showOrderTypeAfterTransaction s ∨ showOrderTypeAfterResponse s
          then some s.selectedOrderType
          else none }
    let rid := s.nextRequestId
    let s₁ := clearOutputState { s with currentRequest := none,
                                        isProcessing := true }
    let s₂ := startCountdown s₁
    let s₃ := { s₂ with currentUUID := some uuid,
                        currentRequest := some rid,
                        nextRequestId := rid + 1 }
    if noFileRequired then
      (s₃, some (.getSchema formData uuid))
    else
      (s₃, some (.processFileReq formData (s.selectedFile.getD "") uuid))

/-- Delivery of a successful response to the subscription with token `rid`
(the `next` callbacks of `processFile`, lines 505-509 and 517-522 of
`dashboard.ts`): RxJS never fires callbacks of an unsubscribed
subscription, so the delivery is observable only while `rid` is still the
held `currentRequest` token.  `wasFileRequest` selects the file branch,
whose handler additionally clears the staged file. -/
def deliverSuccess (rid : Nat) (response : List ProcessingResponseItem)
    (wasFileRequest : Bool) (s : DashboardState) : DashboardState :=
  if s.currentRequest = some rid then
    let s₁ := { s with processedResults := response }
    let s₂ := if wasFileRequest then { s₁ with selectedFile := none } else s₁
    resetForNextRequest s₂
  else s

/-- Delivery of an error to the subscription with token `rid` (the `error`
callbacks of `processFile`, observable only while the subscription is the
live one, as for `deliverSuccess`). -/
def deliverError (rid : Nat) (err : RequestError) (s : DashboardState) :
    DashboardState :=
  if s.currentRequest = some rid then handleRequestError err s else s

-- ========== IDLE MONITOR AND LOGOUT ==========

/-- Navigation targets of the dashboard: `['/login']` plain (manual logout
and `AuthService.logout`) and `['/login']` with
`queryParams: { sessionExpired: 'true' }` (idle auto-logout). -/
inductive NavTarget
  | loginPlain
  | loginSessionExpired
deriving DecidableEq, Repr

/-- Externally visible actions emitted by the logout paths, in program
order: releasing the two timers, unsubscribing the in-flight request,
clearing the session credentials (`AuthService.logout` calls
`clearAuthState()` and then navigates to `/login`), and router
navigations. -/
inductive Effect
  | stopIdleTimerEff
  | stopCountdownEff
  | unsubscribeRequestEff
  | clearCredentialsEff
  | navigate (target : NavTarget)
deriving DecidableEq, Repr

/-- `autoLogout` of `dashboard.ts` (lines 248-266) together with the
`AuthService.logout` it calls (`src/unnamed/part_000`, lines 61-64): stop
the idle timer, stop the countdown, unsubscribe any pending request, then
`authService.logout()` (clear credentials, navigate to `/login`), then
navigate to `/login?sessionExpired=true`.  Returns the successor state and
the emitted effect trace in program order. -/
def autoLogout (s : DashboardState) : DashboardState × List Effect :=
  ({ s with idleTimerActive := false, countdownActive := false,
            currentRequest := none },
   [Effect.stopIdleTimerEff, Effect.stopCountdownEff]
     ++ (if s.currentRequest.isSome then [Effect.unsubscribeRequestEff]
         else [])
     ++ [Effect.clearCredentialsEff, Effect.navigate .loginPlain,
         Effect.navigate .loginSessionExpired])

/-- `logout` of `dashboard.ts` (lines 611-623), the manual logout: same
resource release, `authService.logout()`, then a plain `/login` navigation
with no query parameters. -/
def manualLogout (s : DashboardState) : DashboardState × List Effect :=
  ({ s with idleTimerActive := false, countdownActive := false,
            currentRequest := none },
   [Effect.stopIdleTimerEff, Effect.stopCountdownEff]
     ++ (if s.currentRequest.isSome then [Effect.unsubscribeRequestEff]
         else [])
     ++ [Effect.clearCredentialsEff, Effect.navigate .loginPlain,
         Effect.navigate .loginPlain])

/-- `onUserActivity` / `resetIdleTimer` of `dashboard.ts` (lines 203-233):
any observed activity event records the current instant. -/
def onUserActivity (now : Nat) (s : DashboardState) : DashboardState :=
  { s with lastActivityTime := now }

/-- One tick of the idle interval of `startIdleTimer` (lines 217-225 of
`dashboard.ts`), at instant `now` (milliseconds): only observable while the
idle subscription is live; computes
`Math.floor((now - lastActivityTime) / 1000)` and fires `autoLogout` when
that reaches `IDLE_TIMEOUT_SECONDS`. -/
def idleTick (now : Nat) (s : DashboardState) :
    DashboardState × List Effect :=
  if s.idleTimerActive then
    if (now - s.lastActivityTime) / 1000 ≥ IDLE_TIMEOUT_SECONDS then
      autoLogout s
    else (s, [])
  else (s, [])

-- ========== OUTPUT RECONCILER ==========

/-- `downloadOutput(index)` of `dashboard.ts` (lines 533-565), restricted to
its effect on the held collection.  The index is a JS `number`, modelled as
`Int`.  The source guard is `if (!results || index >= results.length)
return;` — held results are never `null` here, so only the length test
remains.  Past the guard the source reads `results[index]`; for a negative
index that is `undefined`, and both the `atob(result.content)` attempt and
its catch-block fallback then throw a `TypeError` that escapes — modelled as
`none`.  Otherwise the entry is removed with
`results.filter((_, i) => i !== index)`.  `some` is a normal return carrying
the new held collection. -/
def downloadOutput (index : Int) (results : List ProcessingResponseItem) :
    Option (List ProcessingResponseItem) :=
  if (results.length : Int) ≤ index then some results
  else if index < 0 then none
  else
    some (((results.enum.filter fun p => p.1 ≠ index.toNat).map Prod.snd))

/-- The actions `downloadAll` schedules: triggering one artifact's download,
and clearing the whole held collection. -/
inductive DownloadAction
  | download (item : ProcessingResponseItem)
  | clearResults
deriving DecidableEq, Repr

/-- One timer entry scheduled by `downloadAll`: the delay (ms after the
`downloadAll` call) and the action it performs. -/
structure ScheduledAction where
  delayMs : Nat
  action : DownloadAction
deriving DecidableEq, Repr

/-- `downloadAll` of `dashboard.ts` (lines 570-606), as the set of timers it
arms, in iteration order.  `results.forEach((result, index) => ...)` arms a
download of `result` at `index * 500` ms; inside the callback of the last
index (`index === totalFiles - 1`, with `totalFiles` the length read before
the loop) a further 300 ms timer clears the collection, so the clear fires
at `(totalFiles - 1) * 500 + 300` ms from the call. -/
def downloadAll (results : List ProcessingResponseItem) :
    List ScheduledAction :=
  let totalFiles := results.length
  results.enum.flatMap fun p =>
    ⟨p.1 * 500, DownloadAction.download p.2⟩ ::
      (if p.1 = totalFiles - 1 then
        [⟨p.1 * 500 + 300, DownloadAction.clearResults⟩]
      else [])

/-- Whether a scheduled action is a download trigger. -/
def ScheduledAction.isDownload : ScheduledAction → Bool
  | ⟨_, .download _⟩ => true
  | ⟨_, .clearResults⟩ => false

-- ========== CONCRETE SAMPLE STATES (inputs for the witnesses) ==========

/-- A sample dashboard state: ORDER/LTL/EDI/ACK form, a staged file, an
in-flight request holding subscription token `0`, countdown running. -/
def sampleInFlight : DashboardState :=
  { selectedTransactionType := .ORDER
    selectedOrderType := .LTL
    selectedFormat := .EDI
    selectedResponseType := .ACK
    selectedFile := some "QUJD"
    isProcessing := true
    processedResults := []
    errorMessage := none
    isTimeoutError := false
    currentUUID := some "11111111-2222-4333-8444-555555555555"
    remainingSeconds := 42
    currentRequest := some 0
    countdownActive := true
    idleTimerActive := true
    lastActivityTime := 0
    nextRequestId := 1 }

/-- A sample idle state with the ERRORRESPONSE transaction type selected and
no staged file. -/
def sampleErrorResponseState : DashboardState :=
  { sampleInFlight with
      selectedTransactionType := .ERRORRESPONSE
      selectedFile := none
      isProcessing := false
      currentRequest := none
      countdownActive := false }

/-- A sample idle state with GETSCHEMA selected (no staged file, per
`onTransactionTypeChange`, which clears the file when switching to
GETSCHEMA). -/
def sampleGetSchemaState : DashboardState :=
  { sampleInFlight with
      selectedTransactionType := .GETSCHEMA
      selectedResponseType := .ASN
      selectedFile := none
      isProcessing := false
      currentRequest := none
      countdownActive := false }

/-- The GETSCHEMA form state with response type ORDER: the configuration in
which the dashboard shows the ORDER TYPE dropdown after the response type
(`showOrderTypeAfterResponse`). -/
def sampleGetSchemaOrderState : DashboardState :=
  { sampleGetSchemaState with selectedResponseType := .ORDER }

/-- A sample three-item held result collection. -/
def sampleResults : List ProcessingResponseItem :=
  [{ success := true, filename := "a.edi", content := "QQ==",
     mimeType := "application/edi-x12", message := "ok" },
   { success := true, filename := "b.edi", content := "Qg==",
     mimeType := "application/edi-x12", message := "ok" },
   { success := true, filename := "c.json", content := "Qw==",
     mimeType := "application/json", message := "ok" }]

-- ========== GENERAL LEMMAS ==========

theorem validResponseTypesFor_eq_filteredResponseTypes :
    ∀ t, validResponseTypesFor t = filteredResponseTypes t := by
  intro t; cases t <;> rfl

-- ========== CLAIM THEOREMS ==========

/-- C1: for each transaction type in {ORDER, ASN, ITEM, GETSCHEMA} the
derived legal response-type set (`filteredResponseTypes`) equals the
declared mapping, and after every transaction-type change the constructor
effect leaves the selected response type inside the new type's legal set,
keeping a still-legal selection and otherwise resetting it to the set's
first element. -/
theorem claim_C1_response_type_mapping_and_reset :
    (filteredResponseTypes .ORDER = [.ACK, .SHIPCONFIRM]
      ∧ filteredResponseTypes .ASN = [.ACK, .RECEIPT]
      ∧ filteredResponseTypes .ITEM = [.ACK]
      ∧ filteredResponseTypes .GETSCHEMA
          = [.ASN, .ORDER, .SHIPCONFIRM, .RECEIPT, .ITEM])
    ∧ ∀ (t : TransactionType) (r : ResponseType),
        effectResetResponseType t r ∈ filteredResponseTypes t
        ∧ (r ∈ filteredResponseTypes t → effectResetResponseType t r = r)
        ∧ (r ∉ filteredResponseTypes t →
            (filteredResponseTypes t).head?
              = some (effectResetResponseType t r)) := by
  decide

/-- Witness for C1 at a concrete transition: switching to ASN while
SHIPCONFIRM is selected makes the selection illegal, so it resets to the
first element of the ASN set. -/
theorem claim_C1_response_type_mapping_and_reset_witness :
    ResponseType.SHIPCONFIRM ∉ filteredResponseTypes .ASN
    ∧ (filteredResponseTypes .ASN).head?
        = some (effectResetResponseType .ASN .SHIPCONFIRM) :=
  ⟨by decide,
   (claim_C1_response_type_mapping_and_reset.2 .ASN .SHIPCONFIRM).2.2
     (by decide)⟩

/-- C10: for the transaction types ERRORRESPONSE and ERRORTIMEOUT, present
in the `TransactionType` enumeration but outside the spec's declared
domain, the derived legal set falls back (through the switch's `default`)
to ORDER's set {ACK, SHIPCONFIRM}, the file input is not disabled, and
submission is blocked until a file is staged: `isProcessDisabled` is true
exactly while no file is held, and `processFile` returns without
dispatching when no file is held. -/
theorem claim_C10_error_transaction_types :
    (filteredResponseTypes .ERRORRESPONSE = orderResponseTypes
      ∧ filteredResponseTypes .ERRORTIMEOUT = orderResponseTypes
      ∧ orderResponseTypes = [.ACK, .SHIPCONFIRM])
    ∧ ∀ s : DashboardState,
        (s.selectedTransactionType = .ERRORRESPONSE
          ∨ s.selectedTransactionType = .ERRORTIMEOUT) →
        isFileInputDisabled s = false
        ∧ isProcessDisabled s = s.selectedFile.isNone
        ∧ (s.selectedFile = none →
            ∀ uuid, processFileStep uuid s = (s, none))
        ∧ (∀ f, s.selectedFile = some f →
            ∀ uuid, (processFileStep uuid s).2.isSome = true) := by
  refine ⟨⟨rfl, rfl, rfl⟩, ?_⟩
  intro s hs
  have ht : ¬s.selectedTransactionType = TransactionType.GETSCHEMA := by
    rcases hs with h | h <;> simp [h]
  refine ⟨?_, ?_, ?_, ?_⟩
  · simp [isFileInputDisabled, ht]
  · simp [isProcessDisabled, isFileInputDisabled, ht]
  · intro hfile uuid
    simp [processFileStep, ht, hfile]
  · intro f hfile uuid
    simp [processFileStep, ht, hfile]

/-- Witness for C10 at the concrete ERRORRESPONSE state with no staged
file: process is disabled and `processFile` is a no-op. -/
theorem claim_C10_error_transaction_types_witness :
    isFileInputDisabled sampleErrorResponseState = false
    ∧ isProcessDisabled sampleErrorResponseState = true
    ∧ processFileStep "u-c10" sampleErrorResponseState
        = (sampleErrorResponseState, none) := by
  have h := claim_C10_error_transaction_types.2 sampleErrorResponseState
    (Or.inl rfl)
  exact ⟨h.1, by rw [h.2.1]; rfl, h.2.2.1 rfl "u-c10"⟩

/-- C9: while a request is in flight, `cancelRequest` unsubscribes the
request, stops the countdown, resets the processing flag, the
remaining-seconds counter and the correlation id, surfaces no error
message, and leaves the form selections and the staged file unchanged. -/
theorem claim_C9_cancelRequest_silent_reset (s : DashboardState) (r : Nat)
    (_h : s.currentRequest = some r) :
    (cancelRequest s).currentRequest = none
    ∧ (cancelRequest s).countdownActive = false
    ∧ (cancelRequest s).isProcessing = false
    ∧ (cancelRequest s).remainingSeconds = TIMEOUT_SECONDS
    ∧ (cancelRequest s).currentUUID = none
    ∧ (cancelRequest s).errorMessage = s.errorMessage
    ∧ (cancelRequest s).isTimeoutError = s.isTimeoutError
    ∧ (cancelRequest s).selectedTransactionType = s.selectedTransactionType
    ∧ (cancelRequest s).selectedOrderType = s.selectedOrderType
    ∧ (cancelRequest s).selectedFormat = s.selectedFormat
    ∧ (cancelRequest s).selectedResponseType = s.selectedResponseType
    ∧ (cancelRequest s).selectedFile = s.selectedFile := by
  simp [cancelRequest]

/-- Witness for C9 at the concrete in-flight state. -/
theorem claim_C9_cancelRequest_silent_reset_witness :
    (cancelRequest sampleInFlight).currentRequest = none
    ∧ (cancelRequest sampleInFlight).selectedFile
        = sampleInFlight.selectedFile :=
  ⟨(claim_C9_cancelRequest_silent_reset sampleInFlight 0 rfl).1,
   (claim_C9_cancelRequest_silent_reset sampleInFlight 0 rfl).2.2.2.2.2.2.2.2.2.2.2⟩

/-- C5: with GETSCHEMA selected, `processFile` proceeds with no staged file
(the missing-file guard never blocks this branch), dispatches the
schema request, and the outgoing envelope carries no `Input File` key
(for any form data, since the GETSCHEMA branch builds the request with no
file content). -/
theorem claim_C5_getschema_submits_without_file (s : DashboardState)
    (uuid : String) (h : s.selectedTransactionType = .GETSCHEMA) :
    (∃ formData,
      (processFileStep uuid s).2 = some (Dispatch.getSchema formData uuid))
    ∧ (processFileStep uuid s).1.isProcessing = true
    ∧ (processFileStep uuid s).1.currentRequest = some s.nextRequestId
    ∧ ∀ (fd : DashboardFormData) (u : String),
        (getSchemaRequest fd u).Request.inputFileKey = none := by
  refine ⟨⟨{ transactionType := s.selectedTransactionType
             format := s.selectedFormat
             responseType := s.selectedResponseType
             orderType :=
               if showOrderTypeAfterTransaction s
                   ∨ showOrderTypeAfterResponse s
               then some s.selectedOrderType
               else none }, ?_⟩, ?_, ?_, ?_⟩ <;>
    simp [processFileStep, h, clearOutputState, startCountdown,
          getSchemaRequest, buildRequest]

/-- Witness for C5 at the concrete GETSCHEMA state. -/
theorem claim_C5_getschema_submits_without_file_witness :
    (∃ formData,
      (processFileStep "u-c5" sampleGetSchemaState).2
        = some (Dispatch.getSchema formData "u-c5"))
    ∧ (processFileStep "u-c5" sampleGetSchemaState).1.isProcessing = true :=
  ⟨(claim_C5_getschema_submits_without_file sampleGetSchemaState "u-c5"
      rfl).1,
   (claim_C5_getschema_submits_without_file sampleGetSchemaState "u-c5"
      rfl).2.1⟩

/-- The form data the dashboard builds in the C3 failing configuration
(transaction type GETSCHEMA, response type ORDER): it stages
`orderType` because `showOrderTypeAfterResponse` is true. -/
def getschemaOrderFormData : DashboardFormData :=
  { transactionType := .GETSCHEMA
    orderType := some .LTL
    format := .EDI
    responseType := .ORDER }

/-- C3 (code bug), evaluated at the failing input: with transaction type
GETSCHEMA and response type ORDER the dashboard stages the order type in
the form data it hands to the service, yet `buildRequest` omits the
`ORDER TYPE` key from the envelope (it adds the key only when the
transaction type is ORDER), so the envelope lacks the key in a
configuration where the claim and §4.3 of the spec require it. -/
theorem claim_C3_orderType_key_dropped_under_getschema :
    (processFileStep "u-c3" sampleGetSchemaOrderState).2
      = some (Dispatch.getSchema getschemaOrderFormData "u-c3")
    ∧ getschemaOrderFormData.orderType = some .LTL
    ∧ (getSchemaRequest getschemaOrderFormData "u-c3").Request.orderTypeKey
        = none := by
  refine ⟨?_, rfl, rfl⟩
  simp [processFileStep, sampleGetSchemaOrderState, sampleGetSchemaState,
        sampleInFlight, showOrderTypeAfterTransaction,
        showOrderTypeAfterResponse, getschemaOrderFormData]

/-- C4: a countdown that reaches zero (a tick while the counter is at 1 or
below) produces the timeout outcome: the countdown is stopped, the request
subscription is unsubscribed, the timeout flag is set, processing is reset,
and the surfaced message embeds the 60-second bound and the tracked
correlation UUID; and a transport-reported timeout (`RequestTimeoutError`)
yields the very same successor state. -/
theorem claim_C4_timeout_outcomes_coincide (s : DashboardState) (u : String)
    (h : s.currentUUID = some u) :
    (s.countdownActive = true → s.remainingSeconds ≤ 1 →
      countdownTick s = handleCountdownTimeout s)
    ∧ handleCountdownTimeout s = handleRequestError .requestTimeout s
    ∧ (handleCountdownTimeout s).countdownActive = false
    ∧ (handleCountdownTimeout s).currentRequest = none
    ∧ (handleCountdownTimeout s).isTimeoutError = true
    ∧ (handleCountdownTimeout s).isProcessing = false
    ∧ (handleCountdownTimeout s).remainingSeconds = TIMEOUT_SECONDS
    ∧ ∃ p q r', (handleCountdownTimeout s).errorMessage
        = some (p ++ toString TIMEOUT_SECONDS ++ q ++ u ++ r') := by
  refine ⟨?_, ?_, rfl, rfl, rfl, rfl, rfl, ?_⟩
  · intro hc hr
    have : ¬s.remainingSeconds > 1 := by omega
    simp [countdownTick, hc, this]
  · simp [handleCountdownTimeout, handleRequestError, resetForNextRequest]
  · refine ⟨"Request timed out. The server did not respond within ",
      " seconds. Please try again." ++ " (UUID=", ")", ?_⟩
    simp [handleCountdownTimeout, timeoutMessage, uuidSuffix, h,
          String.append_assoc]
    rw [← String.append_assoc " seconds. Please try again." " (UUID="
          (u ++ ")")]
    rfl

/-- Witness for C4 at the concrete in-flight state with the counter at 1. -/
theorem claim_C4_timeout_outcomes_coincide_witness :
    countdownTick { sampleInFlight with remainingSeconds := 1 }
      = handleCountdownTimeout { sampleInFlight with remainingSeconds := 1 }
    ∧ handleCountdownTimeout { sampleInFlight with remainingSeconds := 1 }
      = handleRequestError .requestTimeout
          { sampleInFlight with remainingSeconds := 1 } :=
  ⟨(claim_C4_timeout_outcomes_coincide
      { sampleInFlight with remainingSeconds := 1 }
      "11111111-2222-4333-8444-555555555555" rfl).1 rfl (by decide),
   (claim_C4_timeout_outcomes_coincide
      { sampleInFlight with remainingSeconds := 1 }
      "11111111-2222-4333-8444-555555555555" rfl).2.1⟩

/-- C2: invoking `processFile` while a request subscription exists
discards that subscription before any new dispatch — if a new request is
dispatched it is registered under a fresh token, the old token is no longer
the live one, and delivering the old request's eventual success or error to
the successor state mutates nothing (RxJS never fires an unsubscribed
subscription's callbacks); if the validation guard blocks instead, the
state is untouched and nothing is dispatched, so at most one logical
request is in flight at any time.  `hfresh` is the token-supply invariant:
every issued token is below `nextRequestId`, which holds of every reachable
state since tokens are issued from the increasing supply. -/
theorem claim_C2_single_request_in_flight (s : DashboardState)
    (uuid : String) (r : Nat) (_h : s.currentRequest = some r)
    (hfresh : r < s.nextRequestId) :
    ((processFileStep uuid s).2.isSome →
      (processFileStep uuid s).1.currentRequest = some s.nextRequestId
      ∧ s.nextRequestId ≠ r
      ∧ (∀ (resp : List ProcessingResponseItem) (b : Bool),
          deliverSuccess r resp b (processFileStep uuid s).1
            = (processFileStep uuid s).1)
      ∧ (∀ err : RequestError,
          deliverError r err (processFileStep uuid s).1
            = (processFileStep uuid s).1))
    ∧ ((processFileStep uuid s).2 = none → (processFileStep uuid s).1 = s) := by
  by_cases hg : ¬s.selectedTransactionType = TransactionType.GETSCHEMA
      ∧ s.selectedFile.isNone
  · constructor
    · intro hsome
      exfalso
      simp [processFileStep, hg] at hsome
    · intro _
      simp [processFileStep, hg]
  · have hcur : (processFileStep uuid s).1.currentRequest
        = some s.nextRequestId := by
      simp only [processFileStep]
      rw [if_neg hg]
      split <;> rfl
    have hne : s.nextRequestId ≠ r := by omega
    constructor
    · intro _
      refine ⟨hcur, hne, ?_, ?_⟩
      · intro resp b
        simp [deliverSuccess, hcur, hne]
      · intro err
        simp [deliverError, hcur, hne]
    · intro hnone
      exfalso
      simp only [processFileStep] at hnone
      rw [if_neg hg] at hnone
      revert hnone
      split <;> simp

/-- Witness for C2: re-invoking `processFile` on the concrete in-flight
state (token 0) dispatches a fresh request, and delivering the old token's
error afterwards changes nothing. -/
theorem claim_C2_single_request_in_flight_witness :
    (processFileStep "u-c2" sampleInFlight).1.currentRequest
      = some sampleInFlight.nextRequestId
    ∧ deliverError 0 .requestTimeout (processFileStep "u-c2" sampleInFlight).1
      = (processFileStep "u-c2" sampleInFlight).1 := by
  have h := (claim_C2_single_request_in_flight sampleInFlight "u-c2" 0 rfl
    (by decide)).1 (by decide)
  exact ⟨h.1, h.2.2.2 .requestTimeout⟩

/-- C6: when an idle tick finds 300 s with no recorded activity, the forced
logout runs: the emitted trace stops the idle timer and the countdown and
unsubscribes the in-flight request before the credentials are cleared, the
navigation carrying the session-expired indicator occurs exactly once, and
the idle timer is released so no later tick fires again; manual logout
never emits the session-expired navigation; an activity event resets the
idle clock, and any tick before the bound leaves the state unchanged with
no logout. -/
theorem claim_C6_idle_timeout_forced_logout (s : DashboardState) (r : Nat)
    (now now₂ : Nat) (hactive : s.idleTimerActive = true)
    (hreq : s.currentRequest = some r)
    (hidle : (now - s.lastActivityTime) / 1000 ≥ IDLE_TIMEOUT_SECONDS) :
    (idleTick now s).2
      = [Effect.stopIdleTimerEff, Effect.stopCountdownEff,
         Effect.unsubscribeRequestEff, Effect.clearCredentialsEff,
         Effect.navigate .loginPlain, Effect.navigate .loginSessionExpired]
    ∧ (idleTick now s).2.count (Effect.navigate .loginSessionExpired) = 1
    ∧ (idleTick now s).1.idleTimerActive = false
    ∧ (idleTick now s).1.countdownActive = false
    ∧ (idleTick now s).1.currentRequest = none
    ∧ idleTick now₂ (idleTick now s).1 = ((idleTick now s).1, [])
    ∧ Effect.navigate .loginSessionExpired ∉ (manualLogout s).2
    ∧ (onUserActivity now s).lastActivityTime = now
    ∧ (∀ n, (n - now) / 1000 < IDLE_TIMEOUT_SECONDS →
        idleTick n (onUserActivity now s) = (onUserActivity now s, [])) := by
  have htrace : (idleTick now s).2
      = [Effect.stopIdleTimerEff, Effect.stopCountdownEff,
         Effect.unsubscribeRequestEff, Effect.clearCredentialsEff,
         Effect.navigate .loginPlain,
         Effect.navigate .loginSessionExpired] := by
    simp [idleTick, hactive, hidle, autoLogout, hreq]
  refine ⟨htrace, ?_, ?_, ?_, ?_, ?_, ?_, rfl, ?_⟩
  · rw [htrace]; rfl
  · simp [idleTick, hactive, hidle, autoLogout]
  · simp [idleTick, hactive, hidle, autoLogout]
  · simp [idleTick, hactive, hidle, autoLogout]
  · set s' := (idleTick now s).1 with hs'
    have hoff : s'.idleTimerActive = false := by
      rw [hs']; simp [idleTick, hactive, hidle, autoLogout]
    simp [idleTick, hoff]
  · simp [manualLogout]
  · intro n hn
    have hlt : ¬(n - (onUserActivity now s).lastActivityTime) / 1000
        ≥ IDLE_TIMEOUT_SECONDS := by
      simp only [onUserActivity]
      omega
    simp [idleTick, hlt]

/-- Witness for C6 at concrete instants: last activity at 0 ms, tick at
300 000 ms forces the logout; a tick 200 000 ms after a fresh activity
event does not. -/
theorem claim_C6_idle_timeout_forced_logout_witness :
    (idleTick 300000 sampleInFlight).2.count
      (Effect.navigate .loginSessionExpired) = 1
    ∧ idleTick 500000 (onUserActivity 300000 sampleInFlight)
        = (onUserActivity 300000 sampleInFlight, []) := by
  have h := claim_C6_idle_timeout_forced_logout sampleInFlight 0
    300000 600000 rfl rfl (by decide)
  exact ⟨h.2.1, h.2.2.2.2.2.2.2.2 500000 (by decide)⟩

/-- The `results.filter((_, i) => i !== index)` idiom of `downloadOutput`:
filtering the enumerated list on index inequality and projecting drops
exactly the entry at position `n`. -/
theorem enumFrom_filter_ne_map_snd {α : Type} (l : List α) (n : Nat) :
    ∀ i, ((List.enumFrom i l).filter fun p => p.1 ≠ n).map Prod.snd
      = if n < i then l else l.take (n - i) ++ l.drop (n - i + 1) := by
  induction l with
  | nil => intro i; simp
  | cons a tl ih =>
    intro i
    have ih' := ih (i + 1)
    simp only [ne_eq, decide_not] at ih' ⊢
    rcases Nat.lt_trichotomy n i with h1 | h1 | h1
    · have hne : ¬i = n := by omega
      have h2 : n < i + 1 := by omega
      simp [List.filter_cons, hne, ih', h1, h2]
    · subst h1
      have h2 : n < n + 1 := by omega
      simp [List.filter_cons, ih', h2]
    · have hne : ¬i = n := by omega
      have h2 : ¬n < i + 1 := by omega
      have h3 : ¬n < i := by omega
      obtain ⟨k, hk⟩ : ∃ k, n - i = k + 1 := ⟨n - i - 1, by omega⟩
      have hk1 : n - (i + 1) = k := by omega
      have hk2 : n - i + 1 = k + 1 + 1 := by omega
      simp [List.filter_cons, hne, ih', h2, h3, hk, hk1, hk2]

/-- C7 counterexample: on the concrete three-item collection the claim's
out-of-range clause fails at index `-1` — the guard only tests
`index >= results.length`, so a negative index reaches `results[index]`
(`undefined`) and the access to `.content` throws a `TypeError` (the `none`
outcome), instead of being a no-op that leaves the collection
unchanged. -/
theorem claim_C7_negative_index_counterexample :
    downloadOutput (-1) sampleResults = none
    ∧ downloadOutput (-1) sampleResults ≠ some sampleResults := by
  exact ⟨by decide, by decide⟩

/-- C7 as amended: for `0 ≤ i < |rs|`, `downloadOutput i` returns the held
collection with exactly element `i` removed, remaining elements in original
relative order; for `i ≥ |rs|` the call is a no-op returning the collection
unchanged.  (Negative indices, excluded by the amendment, fault.) -/
theorem claim_C7_downloadOutput_removes_exactly_index
    (results : List ProcessingResponseItem) (i : Int) :
    (0 ≤ i → i < results.length →
      downloadOutput i results
        = some (results.take i.toNat ++ results.drop (i.toNat + 1)))
    ∧ ((results.length : Int) ≤ i → downloadOutput i results = some results) := by
  constructor
  · intro h0 hlt
    have hn : ¬(results.length : Int) ≤ i := by omega
    have hneg : ¬i < 0 := by omega
    have henum : results.enum = List.enumFrom 0 results := rfl
    simp only [downloadOutput, if_neg hn, if_neg hneg, henum,
      enumFrom_filter_ne_map_snd results i.toNat 0]
    simp

  · intro hge
    simp [downloadOutput, hge]

/-- Witness for C7 at concrete inputs: removing index 1 from the three-item
collection keeps items 0 and 2 in order, and index 5 is a no-op. -/
theorem claim_C7_downloadOutput_removes_exactly_index_witness :
    downloadOutput 1 sampleResults
      = some (sampleResults.take 1 ++ sampleResults.drop 2)
    ∧ downloadOutput 5 sampleResults = some sampleResults :=
  ⟨(claim_C7_downloadOutput_removes_exactly_index sampleResults 1).1
      (by decide) (by decide),
   (claim_C7_downloadOutput_removes_exactly_index sampleResults 5).2
      (by decide)⟩

/-- Closed form of the `downloadAll` forEach loop: a traversal of indices
`i` to `T-1` (with `T` the pre-read total) emits the downloads in order and
a single clear entry after the last download. -/
theorem downloadAll_enumFrom_closed (T : Nat)
    (l : List ProcessingResponseItem) :
    ∀ i, i + l.length = T → l ≠ [] →
      ((List.enumFrom i l).flatMap fun p =>
        (⟨p.1 * 500, DownloadAction.download p.2⟩ : ScheduledAction) ::
          (if p.1 = T - 1 then
            [⟨p.1 * 500 + 300, DownloadAction.clearResults⟩]
          else []))
      = ((List.enumFrom i l).map fun p =>
          (⟨p.1 * 500, DownloadAction.download p.2⟩ : ScheduledAction))
        ++ [⟨(T - 1) * 500 + 300, DownloadAction.clearResults⟩] := by
  induction l with
  | nil => intro i h hne; exact absurd rfl hne
  | cons a tl ih =>
    intro i h hne
    by_cases htl : tl = []
    · subst htl
      have hi : i = T - 1 := by
        simp only [List.length_cons, List.length_nil] at h; omega
      simp [hi]
    · have hlen : 0 < tl.length := List.length_pos.mpr htl
      have hlc : i + (tl.length + 1) = T := by
        simpa [Nat.add_assoc] using h
      have hiT : ¬i = T - 1 := by omega
      simp only [List.enumFrom_cons, List.flatMap_cons, List.map_cons,
        if_neg hiT]
      rw [ih (i + 1) (by omega) htl]
      simp

/-- C8: `downloadAll` on a nonempty N-item held collection schedules
exactly N download triggers, the k-th at delay k·500 ms (hence successive
downloads 500 ms apart), plus a single clear of the whole collection at
delay (N−1)·500+300 ms, strictly later than every download trigger. -/
theorem claim_C8_downloadAll_staggered
    (results : List ProcessingResponseItem) (h : results ≠ []) :
    ((downloadAll results).filter ScheduledAction.isDownload).length
        = results.length
    ∧ (∀ k, ((downloadAll results).filter ScheduledAction.isDownload)[k]?
          = results[k]?.map fun it =>
              (⟨k * 500, DownloadAction.download it⟩ : ScheduledAction))
    ∧ ((downloadAll results).filter
          fun entry => entry.action = DownloadAction.clearResults)
        = [⟨(results.length - 1) * 500 + 300, DownloadAction.clearResults⟩]
    ∧ ∀ entry ∈ downloadAll results, entry.isDownload = true →
        entry.delayMs < (results.length - 1) * 500 + 300 := by
  have henum : results.enum = List.enumFrom 0 results := rfl
  have hcf : downloadAll results
      = (results.enum.map fun p =>
          (⟨p.1 * 500, DownloadAction.download p.2⟩ : ScheduledAction))
        ++ [⟨(results.length - 1) * 500 + 300,
             DownloadAction.clearResults⟩] := by
    simp only [downloadAll, henum]
    exact downloadAll_enumFrom_closed results.length results 0 (by omega) h
  have hfd : (downloadAll results).filter ScheduledAction.isDownload
      = results.enum.map fun p =>
          (⟨p.1 * 500, DownloadAction.download p.2⟩ : ScheduledAction) := by
    rw [hcf]
    simp [List.filter_append, List.filter_map, Function.comp_def,
          ScheduledAction.isDownload]
  refine ⟨?_, ?_, ?_, ?_⟩
  · rw [hfd]
    simp
  · intro k
    rw [hfd]
    simp [List.getElem?_map, List.getElem?_enum, Option.map_map,
          Function.comp_def]
  · rw [hcf]
    simp [List.filter_append, List.filter_map, Function.comp_def]
  · intro entry hmem hdl
    rw [hcf] at hmem
    rcases List.mem_append.mp hmem with hm | hm
    · obtain ⟨p, hp, rfl⟩ := List.mem_map.mp hm
      have hlt : p.1 < results.length := List.fst_lt_of_mem_enum hp
      have hle : p.1 ≤ results.length - 1 := by omega
      have : p.1 * 500 ≤ (results.length - 1) * 500 :=
        Nat.mul_le_mul_right 500 hle
      simp only [ScheduledAction.delayMs]
      omega
    · rw [List.mem_singleton.mp hm] at hdl
      simp [ScheduledAction.isDownload] at hdl

/-- Witness for C8 on the concrete three-item collection: three downloads
and one clear at 1300 ms. -/
theorem claim_C8_downloadAll_staggered_witness :
    ((downloadAll sampleResults).filter ScheduledAction.isDownload).length
        = 3
    ∧ ((downloadAll sampleResults).filter
          fun entry => entry.action = DownloadAction.clearResults)
        = [⟨1300, DownloadAction.clearResults⟩] := by
  have h := claim_C8_downloadAll_staggered sampleResults (by decide)
  refine ⟨by rw [h.1]; rfl, ?_⟩
  rw [h.2.2.1]; rfl

end Dashboard
